import Mathlib

/-!
# Verification of the JumperJonesy game core (src/game.js)

Shallow embedding of the game's data model and operations over exact
rational arithmetic. JavaScript numbers are modelled as `ℚ`; the game's
mutable globals (`gameState`, `previousGameState`, `currentLevel`,
`score`, `levelObstacles`, `groundHeight`, `canvas.width`,
`canvas.height`, `player`) are collected into a `GameState` record that
every operation transforms. `Math.random()` draws are supplied as an
explicit oracle `ℕ → ℚ × ℚ × ℚ` (the generator's loop body calls
`Math.random()` three times per iteration: gap, width, height).
-/

/-- The player object of src/game.js (lines 23-39): position, size,
vertical velocity, physics constants, grounded flag and the fixed
hitbox fractions. -/
structure Player where
  x : ℚ
  y : ℚ
  width : ℚ
  height : ℚ
  velocityY : ℚ
  gravity : ℚ
  jumpStrength : ℚ
  isGrounded : Bool
  hitboxOffsetX : ℚ
  hitboxOffsetY : ℚ
  hitboxWidthScale : ℚ
  hitboxHeightScale : ℚ
  terminalVelocity : ℚ
deriving DecidableEq

/-- An obstacle rectangle as pushed by `generateObstacles`. -/
structure Obstacle where
  x : ℚ
  y : ℚ
  width : ℚ
  height : ℚ
deriving DecidableEq

/-- Default obstacle used as the fallback value for list lookups. -/
def obDefault : Obstacle := { x := 0, y := 0, width := 0, height := 0 }

/-- The six string values `gameState` ranges over in src/game.js. -/
inductive GameMode where
  | MENU
  | LEVEL_SELECT
  | LEVEL
  | INFINITE
  | GAME_OVER
  | LEVEL_COMPLETE
deriving DecidableEq

/-- The game's module-level mutable state (src/game.js lines 8-16 plus
the canvas dimensions read by the code). -/
structure GameState where
  gameState : GameMode
  previousGameState : GameMode
  currentLevel : ℚ
  score : ℚ
  levelObstacles : List Obstacle
  player : Player
  canvasWidth : ℚ
  canvasHeight : ℚ
  groundHeight : ℚ
deriving DecidableEq

/-- `resizeCanvas` (src/game.js lines 48-69): re-derives ground height,
player geometry and physics constants from the viewport dimensions and
resets the player position. The canvas dimensions come from the host
(`canvas.offsetWidth` / `canvas.offsetHeight`), modelled as arguments. -/
def resizeCanvas (W H : ℚ) (s : GameState) : GameState :=
  let gh : ℚ := max 18 (H * 0.06)
  let ph : ℚ := H * 0.15
  { s with
    canvasWidth := W
    canvasHeight := H
    groundHeight := gh
    player := { s.player with
      height := ph
      width := ph
      gravity := H * 0.0035
      jumpStrength := -(H * 0.06)
      terminalVelocity := H * 2.5
      x := W * 0.05
      y := H - gh - ph } }

/-- `resetPlayerAndObstacles` (src/game.js lines 160-166). -/
def resetPlayerAndObstacles (s : GameState) : GameState :=
  { s with
    player := { s.player with
      x := s.canvasWidth * 0.05
      y := s.canvasHeight - s.player.height - s.groundHeight
      velocityY := 0
      isGrounded := true }
    levelObstacles := [] }

/-- First block of `updatePlayer` (src/game.js lines 170-178): when
airborne, add gravity to the vertical velocity (a per-tick constant, not
scaled by dt), clamp it to the terminal velocity and move by it. -/
def applyGravity (p : Player) : Player :=
  if p.isGrounded then p
  else
    let v0 := p.velocityY + p.gravity
    let v := if v0 > p.terminalVelocity then p.terminalVelocity else v0
    { p with velocityY := v, y := p.y + v }

/-- Ground collision block of `updatePlayer` (src/game.js lines 181-185):
snap to the ground line, zero the velocity, set grounded. -/
def groundSnap (gl : ℚ) (p : Player) : Player :=
  if p.y + p.height > gl then
    { p with y := gl - p.height, velocityY := 0, isGrounded := true }
  else p

/-- Ceiling clamp block of `updatePlayer` (src/game.js lines 188-191):
snap y to 0 and zero the velocity only if it was negative. -/
def ceilingSnap (p : Player) : Player :=
  if p.y < 0 then
    { p with y := 0, velocityY := if p.velocityY < 0 then 0 else p.velocityY }
  else p

/-- `updatePlayer` (src/game.js lines 168-192): the three blocks in
source order. The source function takes no dt.  The ground line is
`canvas.height - groundHeight`. -/
def updatePlayer (s : GameState) : GameState :=
  { s with player :=
      ceilingSnap (groundSnap (s.canvasHeight - s.groundHeight) (applyGravity s.player)) }

/-- `jump` (src/game.js lines 194-199). -/
def jump (s : GameState) : GameState :=
  if s.player.isGrounded then
    { s with player := { s.player with isGrounded := false, velocityY := s.player.jumpStrength } }
  else s

/-- The parameters the generator's while loop reads (computed before the
loop in `generateObstacles`, src/game.js lines 212-220), together with
the random oracle. -/
structure GenParams where
  difficulty : ℚ
  minGap : ℚ
  maxW : ℚ
  baseH : ℚ
  tallH : ℚ
  groundLine : ℚ
  maxDist : ℚ
  rands : ℕ → ℚ × ℚ × ℚ

/-- Gap for the k-th loop iteration (src/game.js line 223). -/
def genGap (P : GenParams) (k : ℕ) : ℚ :=
  max P.minGap (420 - P.difficulty * 60 + (P.rands k).1 * 100)

/-- Width for the k-th loop iteration (src/game.js line 226). -/
def genW (P : GenParams) (k : ℕ) : ℚ :=
  min P.maxW (P.baseH * 0.6 + P.difficulty * 8 + (P.rands k).2.1 * 18)

/-- Height for the k-th loop iteration (src/game.js line 227). -/
def genH (P : GenParams) (k : ℕ) : ℚ :=
  if (P.rands k).2.2 < 0.25 then P.tallH + P.difficulty * 6 else P.baseH

/-- The generator's `while (total < maxDist)` loop (src/game.js lines
222-238), written with an explicit fuel bound; `generateObstacles`
supplies enough fuel for the loop to always hit its own exit condition,
since each iteration advances the cursor by at least `minGap ≥ 40`.
Arguments after the fuel: cursor `x`, accumulated `total` (0 before the
first iteration, then equal to the cursor), and the random index `k`. -/
def genLoop (P : GenParams) : ℕ → ℚ → ℚ → ℕ → List Obstacle
  | 0, _, _, _ => []
  | fuel + 1, x, total, k =>
    if total < P.maxDist then
      let x1 := x + genGap P k
      let w := genW P k
      let h := genH P k
      { x := x1, y := P.groundLine - h, width := w, height := h } ::
        genLoop P fuel (x1 + w) (x1 + w) (k + 1)
    else []

/-- Fuel bound for `genLoop`: enough iterations at the minimum advance
of 40 per iteration to make the cursor reach `maxDist`. -/
def genFuel (maxDist : ℚ) : ℕ := (⌈maxDist / 40⌉).toNat + 1

/-- The loop parameters `generateObstacles` computes from the game
state (src/game.js lines 212-220). -/
def genParamsOf (isInfinite : Bool) (rands : ℕ → ℚ × ℚ × ℚ) (s : GameState) : GenParams :=
  let difficulty : ℚ :=
    if isInfinite then 1 + ((⌊s.score / 500⌋ : ℤ) : ℚ) * 0.2
    else 1 + (s.currentLevel - 1) * 0.15
  { difficulty := difficulty
    minGap := max (s.player.width * 1.6) 40
    maxW := s.player.width * 2.4
    baseH := s.player.height * 1.05
    tallH := s.player.height * 2.0 + difficulty * 4
    groundLine := s.canvasHeight - s.groundHeight
    maxDist := if isInfinite then 999999999 else 800 + s.currentLevel * 100
    rands := rands }

/-- `generateObstacles` (src/game.js lines 210-239): rebuild
`levelObstacles` by the placement loop, starting the cursor at
`canvas.width * 0.6` with `total = 0`. -/
def generateObstacles (isInfinite : Bool) (rands : ℕ → ℚ × ℚ × ℚ) (s : GameState) : GameState :=
  let P := genParamsOf isInfinite rands s
  { s with levelObstacles := genLoop P (genFuel P.maxDist) (s.canvasWidth * 0.6) 0 0 }

/-- The strict-inequality AABB test of src/game.js line 258, between the
player's shrunken hitbox `(pX, pY, pW, pH)` and an obstacle. -/
def collides (pX pY pW pH : ℚ) (o : Obstacle) : Prop :=
  pX < o.x + o.width ∧ pX + pW > o.x ∧ pY < o.y + o.height ∧ pY + pH > o.y

instance (pX pY pW pH : ℚ) (o : Obstacle) : Decidable (collides pX pY pW pH o) := by
  unfold collides
  infer_instance

/-- Scroll an obstacle left by `dx` (the `o.x -= dx` of src/game.js
line 256). -/
def shiftObs (dx : ℚ) (o : Obstacle) : Obstacle := { o with x := o.x - dx }

/-- Hitbox left edge (src/game.js line 247). -/
def hitboxX (s : GameState) : ℚ := s.player.x + s.player.width * s.player.hitboxOffsetX

/-- Hitbox top edge (src/game.js line 248). -/
def hitboxY (s : GameState) : ℚ := s.player.y + s.player.height * s.player.hitboxOffsetY

/-- Hitbox width (src/game.js line 249). -/
def hitboxW (s : GameState) : ℚ := s.player.width * s.player.hitboxWidthScale

/-- Hitbox height (src/game.js line 250). -/
def hitboxH (s : GameState) : ℚ := s.player.height * s.player.hitboxHeightScale

/-- The obstacle loop of `updateObstacles` (src/game.js lines 254-265).
Returns the updated obstacle list, the collided flag and the levelDone
flag.  On the first collision the source returns from the whole
function, so the remaining obstacles are left unscrolled; the levelDone
test only fires at the last index (`i === levelObstacles.length-1`). -/
def obstaclesLoop (pX pY pW pH dx : ℚ) (isLevel : Bool) : List Obstacle → List Obstacle × Bool × Bool
  | [] => ([], false, false)
  | o :: rest =>
    let o1 := shiftObs dx o
    if collides pX pY pW pH o1 then (o1 :: rest, true, false)
    else
      let r := obstaclesLoop pX pY pW pH dx isLevel rest
      (o1 :: r.1, r.2.1, (isLevel && decide (o1.x < -o1.width) && rest.isEmpty) || r.2.2)

/-- `resetGame` (src/game.js lines 293-298): record the pre-collision
mode, zero the vertical velocity, set grounded and switch to GAME_OVER. -/
def resetGame (s : GameState) : GameState :=
  { s with
    previousGameState := s.gameState
    player := { s.player with velocityY := 0, isGrounded := true }
    gameState := GameMode.GAME_OVER }

/-- Tail of `updateObstacles` (src/game.js lines 259-271): apply the
outcome of the obstacle scan.  A collision calls `resetGame` and returns
at once; otherwise a set levelDone flag performs the LEVEL_COMPLETE
transition (`gameState = 'LEVEL_COMPLETE'`, reset, `currentLevel++`). -/
def applyScanResult (s : GameState) (r : List Obstacle × Bool × Bool) : GameState :=
  if r.2.1 then resetGame { s with levelObstacles := r.1 }
  else if r.2.2 then
    let s1 := resetPlayerAndObstacles { s with levelObstacles := r.1 }
    { s1 with gameState := GameMode.LEVEL_COMPLETE, currentLevel := s1.currentLevel + 1 }
  else { s with levelObstacles := r.1 }

/-- `updateObstacles` (src/game.js lines 241-272): compute the scroll
distance `(baseSpeed + speedUp) * delta` from the mode-dependent speed
(`baseSpeed = gameState === 'LEVEL' ? 250 : 300`, `speedUp = INFINITE ?
floor(score/100)*5 : 0`), scan the obstacles, and apply the outcome. -/
def updateObstacles (delta : ℚ) (s : GameState) : GameState :=
  applyScanResult s
    (obstaclesLoop (hitboxX s) (hitboxY s) (hitboxW s) (hitboxH s)
      (((if s.gameState = GameMode.LEVEL then (250 : ℚ) else 300) +
        (if s.gameState = GameMode.INFINITE then ((⌊s.score / 100⌋ : ℤ) : ℚ) * 5 else 0)) * delta)
      (decide (s.gameState = GameMode.LEVEL)) s.levelObstacles)

/-- `updateGame` (src/game.js line 284). -/
def updateGame (delta : ℚ) (s : GameState) : GameState :=
  updateObstacles delta (updatePlayer s)

/-- `updateScore` (src/game.js line 353). -/
def updateScore (delta : ℚ) (s : GameState) : GameState :=
  { s with score := s.score + 250 * delta }

/-- The per-frame state effects of `gameLoop` (src/game.js lines
138-150): in LEVEL or INFINITE run `updateGame`, then `updateScore`
exactly when the state read *after* the update is not LEVEL (the
source's `if (gameState === 'LEVEL') ... else { updateScore(delta); }`
re-reads the possibly-updated global).  All other states only draw. -/
def frame (delta : ℚ) (s : GameState) : GameState :=
  match s.gameState with
  | GameMode.MENU => s
  | GameMode.LEVEL_SELECT => s
  | GameMode.LEVEL | GameMode.INFINITE =>
    let s1 := updateGame delta s
    if s1.gameState = GameMode.LEVEL then s1 else updateScore delta s1
  | GameMode.GAME_OVER => s
  | GameMode.LEVEL_COMPLETE => s

/-- A sequence of frames folded over their dt values. -/
def runFrames (dts : List ℚ) (s : GameState) : GameState :=
  dts.foldl (fun t d => frame d t) s

/-- A sequence of physics step calls.  The source's `updatePlayer` takes
no dt (gravity is a per-tick constant), so each listed dt drives one
call of `updatePlayer` and is otherwise unused. -/
def stepRun (dts : List ℚ) (s : GameState) : GameState :=
  dts.foldl (fun t _ => updatePlayer t) s

/-- Button rectangle as stored in `menuButtons` (text omitted: only the
geometry is read by `isButtonClicked`). -/
structure Button where
  x : ℚ
  y : ℚ
  width : ℚ
  height : ℚ

/-- `menuButtons.levels` (src/game.js line 80). -/
def levelsButton (W H : ℚ) : Button := { x := W / 2 - 150, y := H / 2 + 30, width := 140, height := 40 }

/-- `menuButtons.infinite` (src/game.js line 81). -/
def infiniteButton (W H : ℚ) : Button := { x := W / 2 + 10, y := H / 2 + 30, width := 140, height := 40 }

/-- `menuButtons.back` (src/game.js line 82); its geometry does not
depend on the viewport. -/
def backButton (_W _H : ℚ) : Button := { x := 20, y := 20, width := 100, height := 30 }

/-- `menuButtons.gameOverMenu` (src/game.js line 86); bw = 200, bh = 50,
by = H/2 + 20, margin = 20. -/
def gameOverMenuButton (W H : ℚ) : Button :=
  { x := W / 2 - 200 - 20 / 2, y := H / 2 + 20, width := 200, height := 50 }

/-- `menuButtons.gameOverRetry` (src/game.js line 87). -/
def gameOverRetryButton (W H : ℚ) : Button :=
  { x := W / 2 + 20 / 2, y := H / 2 + 20, width := 200, height := 50 }

/-- `menuButtons.levelCompleteMenu` (src/game.js line 88). -/
def levelCompleteMenuButton (W H : ℚ) : Button :=
  { x := W / 2 - 200 - 20 / 2, y := H / 2 + 20, width := 200, height := 50 }

/-- `menuButtons.levelCompleteLevels` (src/game.js line 89). -/
def levelCompleteLevelsButton (W H : ℚ) : Button :=
  { x := W / 2 + 20 / 2, y := H / 2 + 20, width := 200, height := 50 }

/-- `menuButtons['level_' + i]` (src/game.js lines 91-99): a 10-column
grid starting at (W*0.1, H*0.25), cell 50x30 with padding 15. -/
def levelButton (W H : ℚ) (i : ℕ) : Button :=
  { x := W * 0.1 + (((i - 1) % 10 : ℕ) : ℚ) * (50 + 15)
    y := H * 0.25 + (((i - 1) / 10 : ℕ) : ℚ) * (30 + 15)
    width := 50
    height := 30 }

/-- `isButtonClicked` (src/game.js lines 443-446). -/
def isButtonClicked (b : Button) (x y : ℚ) : Bool :=
  decide (x ≥ b.x ∧ x ≤ b.x + b.width ∧ y ≥ b.y ∧ y ≤ b.y + b.height)

/-- `handleMouseDown` (src/game.js lines 402-441), with the click
position already translated to canvas coordinates and the random oracle
for the `generateObstacles` calls passed explicitly. -/
def handleMouseDown (x y : ℚ) (rands : ℕ → ℚ × ℚ × ℚ) (s : GameState) : GameState :=
  let W := s.canvasWidth
  let H := s.canvasHeight
  match s.gameState with
  | GameMode.MENU =>
    if isButtonClicked (levelsButton W H) x y then
      { s with gameState := GameMode.LEVEL_SELECT }
    else if isButtonClicked (infiniteButton W H) x y then
      { generateObstacles true rands (resetPlayerAndObstacles { s with score := 0 }) with
        gameState := GameMode.INFINITE }
    else s
  | GameMode.LEVEL_SELECT =>
    if isButtonClicked (backButton W H) x y then
      { s with gameState := GameMode.MENU }
    else
      match (((List.range 50).map fun n => n + 1).find? fun i =>
          isButtonClicked (levelButton W H i) x y) with
      | some i =>
        { generateObstacles false rands
            (resetPlayerAndObstacles { s with currentLevel := (i : ℚ) }) with
          gameState := GameMode.LEVEL }
      | none => s
  | GameMode.GAME_OVER =>
    if isButtonClicked (gameOverMenuButton W H) x y then
      { resetPlayerAndObstacles s with score := 0, gameState := GameMode.MENU }
    else if isButtonClicked (gameOverRetryButton W H) x y then
      let s1 := resetPlayerAndObstacles s
      if s1.previousGameState = GameMode.INFINITE then
        { generateObstacles true rands { s1 with score := 0 } with gameState := GameMode.INFINITE }
      else
        { generateObstacles false rands s1 with gameState := GameMode.LEVEL }
    else s
  | GameMode.LEVEL_COMPLETE =>
    if isButtonClicked (levelCompleteMenuButton W H) x y then
      { s with gameState := GameMode.MENU, score := 0 }
    else if isButtonClicked (levelCompleteLevelsButton W H) x y then
      { s with gameState := GameMode.LEVEL_SELECT }
    else s
  | GameMode.LEVEL => s
  | GameMode.INFINITE => s

/-- `handleKeyInput` (src/game.js lines 448-452). -/
def handleKeyInput (code : String) (s : GameState) : GameState :=
  if (s.gameState = GameMode.LEVEL ∨ s.gameState = GameMode.INFINITE) ∧
      (code = "Space" ∨ code = "ArrowUp") then jump s
  else s

/-!
## Projection lemmas
Small facts about which state fields each operation leaves unchanged.
-/

@[simp] lemma updatePlayer_gameState (s : GameState) : (updatePlayer s).gameState = s.gameState := rfl

@[simp] lemma updatePlayer_score (s : GameState) : (updatePlayer s).score = s.score := rfl

@[simp] lemma updatePlayer_currentLevel (s : GameState) :
    (updatePlayer s).currentLevel = s.currentLevel := rfl

@[simp] lemma updatePlayer_canvasHeight (s : GameState) :
    (updatePlayer s).canvasHeight = s.canvasHeight := rfl

@[simp] lemma updatePlayer_canvasWidth (s : GameState) :
    (updatePlayer s).canvasWidth = s.canvasWidth := rfl

@[simp] lemma updatePlayer_groundHeight (s : GameState) :
    (updatePlayer s).groundHeight = s.groundHeight := rfl

@[simp] lemma applyGravity_height (p : Player) : (applyGravity p).height = p.height := by
  unfold applyGravity
  split <;> rfl

@[simp] lemma groundSnap_height (gl : ℚ) (p : Player) : (groundSnap gl p).height = p.height := by
  unfold groundSnap
  split <;> rfl

@[simp] lemma ceilingSnap_height (p : Player) : (ceilingSnap p).height = p.height := by
  unfold ceilingSnap
  split <;> rfl

@[simp] lemma updatePlayer_player_height (s : GameState) :
    (updatePlayer s).player.height = s.player.height := by
  unfold updatePlayer
  simp

/-!
## C9: resize idempotence
-/

/-- C9: the resize/re-derive routine is idempotent: invoking it twice in
a row with the same viewport dimensions yields identical player geometry
and physics constants (indeed an identical whole state) after each
invocation. -/
theorem resizeIdempotent (s : GameState) (W H : ℚ) :
    resizeCanvas W H (resizeCanvas W H s) = resizeCanvas W H s := rfl

/-!
## C10: the GAME_OVER transition preserves the crash frame
-/

/-- C10: `resetGame` (the transition into GAME_OVER on a collision tick)
leaves `player.x`, `player.y`, `score`, `currentLevel` and the obstacle
sequence unchanged: it only zeroes `velocityY`, sets grounded, records
the previous mode and switches the state.  Moreover a frame run in the
resulting GAME_OVER state performs no simulation, so the crash frame is
preserved until an input event changes the state. -/
theorem resetGameFrameEffect (s : GameState) (delta : ℚ) :
    resetGame s =
      { s with
        gameState := GameMode.GAME_OVER
        previousGameState := s.gameState
        player := { s.player with velocityY := 0, isGrounded := true } } ∧
    frame delta (resetGame s) = resetGame s :=
  ⟨rfl, rfl⟩

/-!
## C3: ground and ceiling invariants of the physics step
-/

lemma groundSnap_le (gl : ℚ) (p : Player) : (groundSnap gl p).y + (groundSnap gl p).height ≤ gl := by
  unfold groundSnap
  split
  case isTrue h => simp
  case isFalse h => simpa using le_of_not_lt h

lemma ceilingSnap_nonneg (p : Player) : 0 ≤ (ceilingSnap p).y := by
  unfold ceilingSnap
  split
  case isTrue h2 => simp
  case isFalse h2 => simpa using le_of_not_lt h2

lemma ceilingSnap_le (gl : ℚ) (p : Player) (hfit : p.height ≤ gl)
    (h : p.y + p.height ≤ gl) : (ceilingSnap p).y + (ceilingSnap p).height ≤ gl := by
  unfold ceilingSnap
  split
  case isTrue h2 => simpa using hfit
  case isFalse h2 => simpa using h

/-- After one `updatePlayer` call the player is inside the vertical play
area, for any starting state whose player fits between ceiling and
ground line. -/
lemma updatePlayer_bounds (s : GameState)
    (hfit : s.player.height ≤ s.canvasHeight - s.groundHeight) :
    0 ≤ (updatePlayer s).player.y ∧
      (updatePlayer s).player.y + (updatePlayer s).player.height ≤
        s.canvasHeight - s.groundHeight := by
  unfold updatePlayer
  constructor
  · exact ceilingSnap_nonneg _
  · refine ceilingSnap_le _ _ ?_ ?_
    · simpa using hfit
    · exact groundSnap_le _ _

lemma stepRun_nil (s : GameState) : stepRun [] s = s := rfl

lemma stepRun_cons (d : ℚ) (dts : List ℚ) (s : GameState) :
    stepRun (d :: dts) s = stepRun dts (updatePlayer s) := rfl

/-- After at least one step of any step sequence, both bounds hold. -/
lemma stepRun_bounds (dts : List ℚ) (s : GameState)
    (hfit : s.player.height ≤ s.canvasHeight - s.groundHeight) :
    0 ≤ (stepRun dts (updatePlayer s)).player.y ∧
      (stepRun dts (updatePlayer s)).player.y + (stepRun dts (updatePlayer s)).player.height ≤
        s.canvasHeight - s.groundHeight := by
  induction dts generalizing s with
  | nil => simpa [stepRun_nil] using updatePlayer_bounds s hfit
  | cons d rest ih =>
    rw [stepRun_cons]
    have hfit2 : (updatePlayer s).player.height ≤
        (updatePlayer s).canvasHeight - (updatePlayer s).groundHeight := by
      simpa using hfit
    simpa using ih (updatePlayer s) hfit2

/-- C3: for every sequence of physics step calls with dt ≥ 0 starting
from a state with the player on or above the ground (inside the play
area), after each step `player.y + player.height ≤ viewportHeight -
groundHeight` and `player.y ≥ 0` hold.  The source's `updatePlayer`
takes no dt (gravity is a per-tick constant), so the dt list only
determines the number of steps. -/
theorem playerGroundCeilingInvariant (s : GameState) (dts : List ℚ) (n : ℕ)
    (h0 : 0 ≤ s.player.y)
    (h1 : s.player.y + s.player.height ≤ s.canvasHeight - s.groundHeight)
    (hdt : ∀ d ∈ dts, 0 ≤ d) (hn1 : 1 ≤ n) (hn2 : n ≤ dts.length) :
    (stepRun (dts.take n) s).player.y + (stepRun (dts.take n) s).player.height ≤
        s.canvasHeight - s.groundHeight ∧
      0 ≤ (stepRun (dts.take n) s).player.y := by
  have hfit : s.player.height ≤ s.canvasHeight - s.groundHeight := by linarith
  cases dts with
  | nil =>
    exfalso
    simp only [List.length_nil] at hn2
    omega
  | cons d rest =>
    cases n with
    | zero => exact absurd hn1 (by omega)
    | succ m =>
      rw [List.take_succ_cons, stepRun_cons]
      have h := stepRun_bounds (rest.take m) s hfit
      exact ⟨h.2, h.1⟩

/-- Concrete state used by the C3 witness: a 800x400 viewport with the
grounded player resting on the ground line. -/
def stC3 : GameState :=
  { gameState := GameMode.LEVEL
    previousGameState := GameMode.INFINITE
    currentLevel := 1
    score := 0
    levelObstacles := []
    player :=
      { x := 40, y := 316, width := 60, height := 60, velocityY := 0, gravity := 1.4
        jumpStrength := -24, isGrounded := true, hitboxOffsetX := 0.12, hitboxOffsetY := 0.18
        hitboxWidthScale := 0.76, hitboxHeightScale := 0.68, terminalVelocity := 1000 }
    canvasWidth := 800
    canvasHeight := 400
    groundHeight := 24 }

/-- Witness for C3 at a concrete state and a one-step sequence. -/
theorem playerGroundCeilingInvariant_witness :
    (stepRun ([1].take 1) stC3).player.y + (stepRun ([1].take 1) stC3).player.height ≤
        stC3.canvasHeight - stC3.groundHeight ∧
      0 ≤ (stepRun ([1].take 1) stC3).player.y :=
  playerGroundCeilingInvariant stC3 [1] 1 (by norm_num [stC3]) (by norm_num [stC3])
    (by simp) (by norm_num) (by simp)

/-!
## The obstacle scan: collision and completion (C1, C2)
-/

/-- Whether the last obstacle of the list, scrolled by `dx`, satisfies
the completion test `x < -width` (false for an empty list). -/
def lastPastFlag (dx : ℚ) (l : List Obstacle) : Bool :=
  match l.getLast? with
  | some o => decide (o.x - dx < -o.width)
  | none => false

@[simp] lemma lastPastFlag_nil (dx : ℚ) : lastPastFlag dx [] = false := rfl

@[simp] lemma lastPastFlag_singleton (dx : ℚ) (o : Obstacle) :
    lastPastFlag dx [o] = decide (o.x - dx < -o.width) := rfl

@[simp] lemma lastPastFlag_cons_cons (dx : ℚ) (o p : Obstacle) (t : List Obstacle) :
    lastPastFlag dx (o :: p :: t) = lastPastFlag dx (p :: t) := by
  unfold lastPastFlag
  rw [List.getLast?_cons_cons]

lemma lastPastFlag_concat (dx : ℚ) (l : List Obstacle) (o : Obstacle) :
    lastPastFlag dx (l ++ [o]) = decide (o.x - dx < -o.width) := by
  unfold lastPastFlag
  rw [List.getLast?_concat]

/-- When no scrolled obstacle overlaps the hitbox, the scan shifts every
obstacle, reports no collision, and sets the levelDone flag exactly when
the mode is LEVEL and the last obstacle has scrolled past `x < -width`. -/
lemma obstaclesLoop_no_collision (pX pY pW pH dx : ℚ) (isLevel : Bool) (l : List Obstacle)
    (h : ∀ o ∈ l, ¬ collides pX pY pW pH (shiftObs dx o)) :
    obstaclesLoop pX pY pW pH dx isLevel l =
      (l.map (shiftObs dx), false, isLevel && lastPastFlag dx l) := by
  induction l with
  | nil => simp [obstaclesLoop]
  | cons o rest ih =>
    have ho : ¬ collides pX pY pW pH (shiftObs dx o) := h o (List.mem_cons_self o rest)
    have hrest : ∀ p ∈ rest, ¬ collides pX pY pW pH (shiftObs dx p) :=
      fun p hp => h p (List.mem_cons_of_mem o hp)
    rw [obstaclesLoop]
    simp only [if_neg ho, ih hrest]
    cases rest with
    | nil => simp [shiftObs]
    | cons p t => simp

/-- When the scan hits a first overlapping obstacle, it shifts the
obstacles up to and including it, leaves the rest untouched, and reports
the collision with the levelDone flag clear. -/
lemma obstaclesLoop_collision (pX pY pW pH dx : ℚ) (isLevel : Bool)
    (pre post : List Obstacle) (o : Obstacle)
    (hpre : ∀ p ∈ pre, ¬ collides pX pY pW pH (shiftObs dx p))
    (ho : collides pX pY pW pH (shiftObs dx o)) :
    obstaclesLoop pX pY pW pH dx isLevel (pre ++ o :: post) =
      (pre.map (shiftObs dx) ++ shiftObs dx o :: post, true, false) := by
  induction pre with
  | nil => simp [obstaclesLoop, if_pos ho]
  | cons p t ih =>
    have hp : ¬ collides pX pY pW pH (shiftObs dx p) := hpre p (List.mem_cons_self p t)
    have ht : ∀ q ∈ t, ¬ collides pX pY pW pH (shiftObs dx q) :=
      fun q hq => hpre q (List.mem_cons_of_mem p hq)
    rw [List.cons_append, obstaclesLoop]
    simp only [if_neg hp, ih ht]
    simp

/-- C1: on a tick in an active play state, the scroller uses scroll
speed `(mode==LEVEL ? 250 : 300) + (mode==INFINITE ? floor(score/100)*5
: 0)`, scrolls obstacles left by `speed*dt` in ascending index order,
tests the shrunken hitbox with the strict-inequality AABB test, and on
the first overlap transitions to GAME_OVER (previous mode recorded,
velocityY zeroed, grounded set) without processing the remaining
obstacles, which therefore stay unscrolled this frame; in particular
collision wins over level completion. -/
theorem collisionTickOutcome (s : GameState) (delta dx : ℚ)
    (pre post : List Obstacle) (o : Obstacle)
    (hdx : dx = ((if s.gameState = GameMode.LEVEL then (250 : ℚ) else 300) +
      (if s.gameState = GameMode.INFINITE then ((⌊s.score / 100⌋ : ℤ) : ℚ) * 5 else 0)) * delta)
    (_hmode : s.gameState = GameMode.LEVEL ∨ s.gameState = GameMode.INFINITE)
    (hobs : s.levelObstacles = pre ++ o :: post)
    (hpre : ∀ p ∈ pre, ¬ collides (hitboxX s) (hitboxY s) (hitboxW s) (hitboxH s) (shiftObs dx p))
    (hcol : collides (hitboxX s) (hitboxY s) (hitboxW s) (hitboxH s) (shiftObs dx o)) :
    updateObstacles delta s =
      { s with
        levelObstacles := pre.map (shiftObs dx) ++ shiftObs dx o :: post
        gameState := GameMode.GAME_OVER
        previousGameState := s.gameState
        player := { s.player with velocityY := 0, isGrounded := true } } := by
  unfold updateObstacles
  rw [hobs, ← hdx,
    obstaclesLoop_collision (hitboxX s) (hitboxY s) (hitboxW s) (hitboxH s) dx
      (decide (s.gameState = GameMode.LEVEL)) pre post o hpre hcol]
  rfl



/-- Concrete state for the C1 witness: LEVEL mode with one obstacle that
overlaps the hitbox after the scroll of a dt = 1/10 tick. -/
def stC1 : GameState :=
  { gameState := GameMode.LEVEL
    previousGameState := GameMode.INFINITE
    currentLevel := 1
    score := 0
    levelObstacles := [{ x := 60, y := 313, width := 50, height := 63 }]
    player :=
      { x := 40, y := 316, width := 60, height := 60, velocityY := 0, gravity := 1.4
        jumpStrength := -24, isGrounded := true, hitboxOffsetX := 0.12, hitboxOffsetY := 0.18
        hitboxWidthScale := 0.76, hitboxHeightScale := 0.68, terminalVelocity := 1000 }
    canvasWidth := 800
    canvasHeight := 400
    groundHeight := 24 }

/-- Witness for C1: a concrete collision tick ends in GAME_OVER with the
pre-collision mode recorded and the velocity zeroed. -/
theorem collisionTickOutcome_witness :
    (updateObstacles (1/10) stC1).gameState = GameMode.GAME_OVER ∧
      (updateObstacles (1/10) stC1).previousGameState = GameMode.LEVEL ∧
      (updateObstacles (1/10) stC1).player.velocityY = 0 ∧
      (updateObstacles (1/10) stC1).score = stC1.score := by
  have h := collisionTickOutcome stC1 (1/10) 25 [] []
    { x := 60, y := 313, width := 50, height := 63 }
    (by norm_num [stC1]) (Or.inl rfl) rfl (by simp)
    (by norm_num [stC1, collides, shiftObs, hitboxX, hitboxY, hitboxW, hitboxH])
  rw [h]
  exact ⟨rfl, rfl, rfl, rfl⟩

/-- C2: in LEVEL mode, on the tick in which the (post-scroll) last
obstacle satisfies `x < -width` and no collision occurred during that
tick's scan, the state transitions LEVEL -> LEVEL_COMPLETE,
`currentLevel` is incremented by exactly 1, and the player and obstacle
sequence are reset; the transition is applied only after the full scan
(the hypothesis requires every obstacle of the scan collision-free). -/
theorem levelCompleteTickOutcome (s : GameState) (delta dx : ℚ)
    (init : List Obstacle) (last : Obstacle)
    (hdx : dx = 250 * delta)
    (hmode : s.gameState = GameMode.LEVEL)
    (hobs : s.levelObstacles = init ++ [last])
    (hnc : ∀ p ∈ s.levelObstacles,
      ¬ collides (hitboxX s) (hitboxY s) (hitboxW s) (hitboxH s) (shiftObs dx p))
    (hpast : last.x - dx < -last.width) :
    updateObstacles delta s =
      { s with
        levelObstacles := []
        player := { s.player with
          x := s.canvasWidth * 0.05
          y := s.canvasHeight - s.player.height - s.groundHeight
          velocityY := 0
          isGrounded := true }
        gameState := GameMode.LEVEL_COMPLETE
        currentLevel := s.currentLevel + 1 } := by
  have hdx2 : ((if s.gameState = GameMode.LEVEL then (250 : ℚ) else 300) +
      (if s.gameState = GameMode.INFINITE then ((⌊s.score / 100⌋ : ℤ) : ℚ) * 5 else 0)) * delta
      = dx := by
    rw [hmode, hdx]
    simp
  have hnc2 : ∀ p ∈ init ++ [last],
      ¬ collides (hitboxX s) (hitboxY s) (hitboxW s) (hitboxH s) (shiftObs dx p) := by
    rw [← hobs]
    exact hnc
  unfold updateObstacles
  rw [hobs, hdx2,
    obstaclesLoop_no_collision (hitboxX s) (hitboxY s) (hitboxW s) (hitboxH s) dx
      (decide (s.gameState = GameMode.LEVEL)) (init ++ [last]) hnc2]
  have hflag : (decide (s.gameState = GameMode.LEVEL) && lastPastFlag dx (init ++ [last])) = true := by
    rw [lastPastFlag_concat, hmode]
    simp [hpast]
  rw [hflag]
  rfl

/-- Concrete state for the C2 witness: LEVEL mode whose single obstacle
has scrolled fully past the left edge on this tick. -/
def stC2 : GameState :=
  { gameState := GameMode.LEVEL
    previousGameState := GameMode.INFINITE
    currentLevel := 4
    score := 0
    levelObstacles := [{ x := -100, y := 313, width := 10, height := 63 }]
    player :=
      { x := 40, y := 316, width := 60, height := 60, velocityY := 0, gravity := 1.4
        jumpStrength := -24, isGrounded := true, hitboxOffsetX := 0.12, hitboxOffsetY := 0.18
        hitboxWidthScale := 0.76, hitboxHeightScale := 0.68, terminalVelocity := 1000 }
    canvasWidth := 800
    canvasHeight := 400
    groundHeight := 24 }

/-- Witness for C2: a concrete completion tick ends in LEVEL_COMPLETE
with the level counter advanced from 4 to 5 and the sequence cleared. -/
theorem levelCompleteTickOutcome_witness :
    (updateObstacles (1/10) stC2).gameState = GameMode.LEVEL_COMPLETE ∧
      (updateObstacles (1/10) stC2).currentLevel = 5 ∧
      (updateObstacles (1/10) stC2).levelObstacles = [] := by
  have h := levelCompleteTickOutcome stC2 (1/10) 25 []
    { x := -100, y := 313, width := 10, height := 63 }
    (by norm_num) rfl rfl
    (by
      intro p hp
      simp only [stC2, List.mem_singleton] at hp
      subst hp
      norm_num [collides, shiftObs, hitboxX, hitboxY, hitboxW, hitboxH, stC2])
    (by norm_num)
  rw [h]
  refine ⟨rfl, ?_, rfl⟩
  norm_num [stC2]

/-!
## The obstacle generator (C4, C5)
-/

lemma genLoop_zero (P : GenParams) (x total : ℚ) (k : ℕ) : genLoop P 0 x total k = [] := rfl

lemma genLoop_succ (P : GenParams) (fuel : ℕ) (x total : ℚ) (k : ℕ) :
    genLoop P (fuel + 1) x total k =
      if total < P.maxDist then
        { x := x + genGap P k, y := P.groundLine - genH P k, width := genW P k,
          height := genH P k } ::
          genLoop P fuel (x + genGap P k + genW P k) (x + genGap P k + genW P k) (k + 1)
      else [] := rfl

/-- A nonempty loop result means the entry test `total < maxDist` passed. -/
lemma genLoop_ne_nil_total (P : GenParams) (fuel : ℕ) (x total : ℚ) (k : ℕ)
    (h : genLoop P fuel x total k ≠ []) : total < P.maxDist := by
  cases fuel with
  | zero => exact absurd (genLoop_zero P x total k) h
  | succ fuel =>
    rw [genLoop_succ] at h
    by_contra hc
    rw [if_neg hc] at h
    exact h rfl

/-- Shape of every element of the generated list: the i-th obstacle is
placed at the previous rightmost edge (or the starting cursor for i=0)
plus the i-th gap, with the i-th width and height, footed on the ground
line; and every obstacle except the last ends strictly before maxDist
(the loop continued past it). -/
lemma genLoop_getD (P : GenParams) :
    ∀ (fuel : ℕ) (x total : ℚ) (k i : ℕ),
      i < (genLoop P fuel x total k).length →
      ((genLoop P fuel x total k).getD i obDefault).x =
          (if i = 0 then x else
            ((genLoop P fuel x total k).getD (i - 1) obDefault).x +
              ((genLoop P fuel x total k).getD (i - 1) obDefault).width) + genGap P (k + i) ∧
        ((genLoop P fuel x total k).getD i obDefault).width = genW P (k + i) ∧
        ((genLoop P fuel x total k).getD i obDefault).height = genH P (k + i) ∧
        ((genLoop P fuel x total k).getD i obDefault).y =
          P.groundLine - ((genLoop P fuel x total k).getD i obDefault).height ∧
        (i + 1 < (genLoop P fuel x total k).length →
          ((genLoop P fuel x total k).getD i obDefault).x +
            ((genLoop P fuel x total k).getD i obDefault).width < P.maxDist) := by
  intro fuel
  induction fuel with
  | zero =>
    intro x total k i hi
    rw [genLoop_zero] at hi
    exact absurd hi (by simp)
  | succ fuel ih =>
    intro x total k i hi
    by_cases htot : total < P.maxDist
    · rw [genLoop_succ, if_pos htot] at hi ⊢
      cases i with
      | zero =>
        refine ⟨?_, ?_, ?_, ?_, ?_⟩
        · simp
        · simp
        · simp
        · simp
        · intro hlen
          have hne : genLoop P fuel (x + genGap P k + genW P k) (x + genGap P k + genW P k)
              (k + 1) ≠ [] := by
            intro hnil
            rw [hnil] at hlen
            simp at hlen
          have h2 := genLoop_ne_nil_total P fuel _ _ _ hne
          simpa using h2
      | succ j =>
        rw [List.length_cons, Nat.succ_lt_succ_iff] at hi
        have H := ih (x + genGap P k + genW P k) (x + genGap P k + genW P k) (k + 1) j hi
        have hkj : k + 1 + j = k + (j + 1) := by omega
        rw [hkj] at H
        refine ⟨?_, ?_, ?_, ?_, ?_⟩
        · simp only [List.getD_cons_succ]
          rw [H.1]
          cases j with
          | zero => simp
          | succ m =>
            have hsub : m + 1 + 1 - 1 = m + 1 := by omega
            rw [hsub]
            simp [List.getD_cons_succ]
        · simp only [List.getD_cons_succ]
          exact H.2.1
        · simp only [List.getD_cons_succ]
          exact H.2.2.1
        · simp only [List.getD_cons_succ]
          exact H.2.2.2.1
        · intro hlen
          simp only [List.getD_cons_succ]
          refine H.2.2.2.2 ?_
          rw [List.length_cons, Nat.succ_lt_succ_iff] at hlen
          exact hlen
    · rw [genLoop_succ, if_neg htot] at hi
      exact absurd hi (by simp)

/-- With nonnegative widths and the always-true bound `minGap ≥ 40`,
enough fuel makes the loop exit on its own condition: either it never
ran (the total already reached maxDist) or its last obstacle's right
edge reached maxDist. -/
lemma genLoop_last_reaches (P : GenParams) (hgap : 40 ≤ P.minGap)
    (hw : ∀ k, 0 ≤ genW P k) :
    ∀ (fuel : ℕ) (x total : ℚ) (k : ℕ), total ≤ x →
      P.maxDist - total ≤ 40 * fuel →
      (genLoop P fuel x total k = [] ∧ P.maxDist ≤ total) ∨
        (∃ o, (genLoop P fuel x total k).getLast? = some o ∧ P.maxDist ≤ o.x + o.width) := by
  intro fuel
  induction fuel with
  | zero =>
    intro x total k htx hfuel
    left
    refine ⟨genLoop_zero P x total k, ?_⟩
    push_cast at hfuel
    linarith
  | succ fuel ih =>
    intro x total k htx hfuel
    rw [genLoop_succ]
    by_cases htot : total < P.maxDist
    · rw [if_pos htot]
      right
      have hgap40 : 40 ≤ genGap P k := le_trans hgap (le_max_left _ _)
      have hadv : total + 40 ≤ x + genGap P k + genW P k := by
        have := hw k
        linarith
      have hrec := ih (x + genGap P k + genW P k) (x + genGap P k + genW P k) (k + 1)
        (le_refl _) (by push_cast at hfuel; linarith)
      rcases hrec with ⟨hnil, hle⟩ | ⟨o, holast, hole⟩
      · refine ⟨⟨x + genGap P k, P.groundLine - genH P k, genW P k, genH P k⟩, ?_, ?_⟩
        · rw [hnil]
          rfl
        · simpa using hle
      · refine ⟨o, ?_, hole⟩
        have hne : genLoop P fuel (x + genGap P k + genW P k) (x + genGap P k + genW P k)
            (k + 1) ≠ [] := by
          intro hnil
          rw [hnil] at holast
          exact Option.noConfusion holast
        obtain ⟨p, t, heq⟩ := List.exists_cons_of_ne_nil hne
        rw [heq, List.getLast?_cons_cons]
        rw [heq] at holast
        exact holast
    · rw [if_neg htot]
      left
      exact ⟨rfl, le_of_not_lt htot⟩

/-- The fuel chosen by `generateObstacles` satisfies the bound needed by
`genLoop_last_reaches` starting from `total = 0`. -/
lemma genFuel_bound (md : ℚ) : md ≤ 40 * (genFuel md : ℚ) := by
  unfold genFuel
  rcases le_or_lt md 0 with h | h
  · have : (0 : ℚ) ≤ ((⌈md / 40⌉.toNat : ℚ) + 1) := by positivity
    push_cast
    nlinarith
  · have hceil : md / 40 ≤ (⌈md / 40⌉ : ℚ) := Int.le_ceil _
    have hnn : (0 : ℤ) ≤ ⌈md / 40⌉ := by
      have : (0 : ℚ) < md / 40 := by positivity
      exact_mod_cast le_of_lt (Int.ceil_pos.mpr this)
    have htn : ((⌈md / 40⌉.toNat : ℤ) : ℚ) = ((⌈md / 40⌉ : ℤ) : ℚ) := by
      exact_mod_cast congrArg Int.cast (Int.toNat_of_nonneg hnn)
    push_cast
    push_cast at htn
    rw [htn]
    nlinarith

lemma generateObstacles_levelObstacles (isInf : Bool) (rands : ℕ → ℚ × ℚ × ℚ) (s : GameState) :
    (generateObstacles isInf rands s).levelObstacles =
      genLoop (genParamsOf isInf rands s) (genFuel (genParamsOf isInf rands s).maxDist)
        (s.canvasWidth * 0.6) 0 0 := rfl

/-- Nonnegativity of the difficulty scalar under the gameplay-reachable
hypotheses score ≥ 0 and currentLevel ≥ 1. -/
lemma genParamsOf_difficulty_nonneg (isInf : Bool) (rands : ℕ → ℚ × ℚ × ℚ) (s : GameState)
    (hsc : 0 ≤ s.score) (hlev : 1 ≤ s.currentLevel) :
    0 ≤ (genParamsOf isInf rands s).difficulty := by
  have hdef : (genParamsOf isInf rands s).difficulty =
      if isInf then 1 + ((⌊s.score / 500⌋ : ℤ) : ℚ) * 0.2
      else 1 + (s.currentLevel - 1) * 0.15 := rfl
  rw [hdef]
  split
  · have hfl : (0 : ℤ) ≤ ⌊s.score / 500⌋ :=
      Int.floor_nonneg.mpr (div_nonneg hsc (by norm_num))
    have hq : (0 : ℚ) ≤ ((⌊s.score / 500⌋ : ℤ) : ℚ) := by exact_mod_cast hfl
    nlinarith
  · nlinarith

/-- Nonnegativity of every generated width under the same hypotheses
plus nonnegative player size and width draws. -/
lemma genParamsOf_genW_nonneg (isInf : Bool) (rands : ℕ → ℚ × ℚ × ℚ) (s : GameState)
    (hpw : 0 ≤ s.player.width) (hph : 0 ≤ s.player.height)
    (hsc : 0 ≤ s.score) (hlev : 1 ≤ s.currentLevel)
    (hr : ∀ k, 0 ≤ (rands k).2.1) :
    ∀ k, 0 ≤ genW (genParamsOf isInf rands s) k := by
  intro k
  have hdiff := genParamsOf_difficulty_nonneg isInf rands s hsc hlev
  have hrands : (genParamsOf isInf rands s).rands = rands := rfl
  have hbaseH : (genParamsOf isInf rands s).baseH = s.player.height * 1.05 := rfl
  have hmaxW : (genParamsOf isInf rands s).maxW = s.player.width * 2.4 := rfl
  unfold genW
  rw [hrands, hbaseH, hmaxW]
  refine le_min (by nlinarith) ?_
  have := hr k
  nlinarith

/-- C4: the generator computes difficulty `1 + floor(score/500)*0.2`
(infinite) or `1 + (currentLevel-1)*0.15` (level), uses target length
`800 + currentLevel*100` in level mode, starts the cursor at
`viewportWidth*0.6`, and places each obstacle at the previous rightmost
edge plus `gap = max(max(pw*1.6,40), 420 - d*60 + rand*100)`, with width
`min(pw*2.4, ph*1.05*0.6 + d*8 + rand*18)`, height `ph*2.0 + d*4 + d*6`
when the height draw is < 0.25 and `ph*1.05` otherwise, footed at
`y = groundLine - height`.  Every obstacle except the last ends strictly
before the target length, and (under the gameplay-reachable sign
hypotheses) the last obstacle's right edge reaches it. -/
theorem obstaclePlacementFormulas (s : GameState) (isInf : Bool) (rands : ℕ → ℚ × ℚ × ℚ)
    (d md : ℚ) (obs : List Obstacle) (i : ℕ) (o : Obstacle) (c : ℚ)
    (hd : d = if isInf then 1 + ((⌊s.score / 500⌋ : ℤ) : ℚ) * 0.2
      else 1 + (s.currentLevel - 1) * 0.15)
    (hmd : md = if isInf then (999999999 : ℚ) else 800 + s.currentLevel * 100)
    (hobs : obs = (generateObstacles isInf rands s).levelObstacles)
    (hi : i < obs.length)
    (ho : o = obs.getD i obDefault)
    (hc : c = if i = 0 then s.canvasWidth * 0.6 else
      (obs.getD (i - 1) obDefault).x + (obs.getD (i - 1) obDefault).width) :
    o.x = c + max (max (s.player.width * 1.6) 40) (420 - d * 60 + (rands i).1 * 100) ∧
    o.width = min (s.player.width * 2.4)
      (s.player.height * 1.05 * 0.6 + d * 8 + (rands i).2.1 * 18) ∧
    o.height = (if (rands i).2.2 < 0.25 then s.player.height * 2.0 + d * 4 + d * 6
      else s.player.height * 1.05) ∧
    o.y = s.canvasHeight - s.groundHeight - o.height ∧
    (i + 1 < obs.length → o.x + o.width < md) ∧
    (0 ≤ s.player.width → 0 ≤ s.player.height → 0 ≤ s.score → 1 ≤ s.currentLevel →
      0 ≤ s.canvasWidth → (∀ k, 0 ≤ (rands k).2.1) →
      ∀ ol, obs.getLast? = some ol → md ≤ ol.x + ol.width) := by
  subst hobs
  subst hd
  subst hmd
  subst ho
  subst hc
  rw [generateObstacles_levelObstacles] at hi ⊢
  have H := genLoop_getD (genParamsOf isInf rands s)
    (genFuel (genParamsOf isInf rands s).maxDist) (s.canvasWidth * 0.6) 0 0 i hi
  rw [Nat.zero_add] at H
  refine ⟨?_, ?_, ?_, ?_, ?_, ?_⟩
  · rw [H.1]
    rfl
  · rw [H.2.1]
    rfl
  · rw [H.2.2.1]
    rfl
  · rw [H.2.2.2.1]
    rfl
  · intro hlen
    exact H.2.2.2.2 hlen
  · intro hpw hph hsc hlev hcw hr ol hol
    have hgap : (40 : ℚ) ≤ (genParamsOf isInf rands s).minGap := by
      have : (genParamsOf isInf rands s).minGap = max (s.player.width * 1.6) 40 := rfl
      rw [this]
      exact le_max_right _ _
    have hw := genParamsOf_genW_nonneg isInf rands s hpw hph hsc hlev hr
    have hreach := genLoop_last_reaches (genParamsOf isInf rands s) hgap hw
      (genFuel (genParamsOf isInf rands s).maxDist) (s.canvasWidth * 0.6) 0 0
      (by nlinarith) (by
        have := genFuel_bound (genParamsOf isInf rands s).maxDist
        linarith)
    rcases hreach with ⟨hnil, _⟩ | ⟨o2, hlast2, hle2⟩
    · rw [hnil] at hol
      exact Option.noConfusion hol
    · rw [hol] at hlast2
      have : ol = o2 := Option.some.inj hlast2
      subst this
      exact hle2

/-- Unfolding step for `genLoop` phrased on positive fuel, suitable for
rewriting at concrete fuel literals. -/
lemma genLoop_pos (P : GenParams) (fuel : ℕ) (x total : ℚ) (k : ℕ) (h : 0 < fuel) :
    genLoop P fuel x total k =
      if total < P.maxDist then
        { x := x + genGap P k, y := P.groundLine - genH P k, width := genW P k,
          height := genH P k } ::
          genLoop P (fuel - 1) (x + genGap P k + genW P k) (x + genGap P k + genW P k) (k + 1)
      else [] := by
  cases fuel with
  | zero => omega
  | succ f =>
    rw [genLoop_succ]
    norm_num

/-- The loop yields nothing once the accumulated total has reached
maxDist, whatever fuel remains. -/
lemma genLoop_stop (P : GenParams) (fuel : ℕ) (x total : ℚ) (k : ℕ)
    (h : ¬ total < P.maxDist) : genLoop P fuel x total k = [] := by
  cases fuel with
  | zero => rfl
  | succ f =>
    rw [genLoop_succ, if_neg h]

/-- Degenerate-draw random oracle used by the generator witnesses. -/
def r0C4 : ℕ → ℚ × ℚ × ℚ := fun _ => (0, 0, 0)

/-- Concrete state used by the generator witnesses: 400x400 viewport,
60x60 player, level 1. -/
def stC4 : GameState :=
  { gameState := GameMode.LEVEL_SELECT
    previousGameState := GameMode.INFINITE
    currentLevel := 1
    score := 0
    levelObstacles := []
    player :=
      { x := 20, y := 316, width := 60, height := 60, velocityY := 0, gravity := 1.4
        jumpStrength := -24, isGrounded := true, hitboxOffsetX := 0.12, hitboxOffsetY := 0.18
        hitboxWidthScale := 0.76, hitboxHeightScale := 0.68, terminalVelocity := 1000 }
    canvasWidth := 400
    canvasHeight := 400
    groundHeight := 24 }

/-- The level-1 generation for `stC4` under all-zero draws, evaluated. -/
lemma stC4_gen : (generateObstacles false r0C4 stC4).levelObstacles =
    [{ x := 600, y := 246, width := 229/5, height := 130 },
     { x := 5029/5, y := 246, width := 229/5, height := 130 }] := by
  rw [generateObstacles_levelObstacles]
  norm_num [genLoop_pos, genLoop_stop, genGap, genW, genH, genParamsOf, genFuel, stC4, r0C4,
    max_def, min_def]

/-- Witness for C4 at the first generated obstacle of a concrete level-1
run: its x is the cursor 240 plus the gap 360, and its height is the
tall-obstacle value 130. -/
theorem obstaclePlacementFormulas_witness :
    ((generateObstacles false r0C4 stC4).levelObstacles.getD 0 obDefault).x = 600 ∧
      ((generateObstacles false r0C4 stC4).levelObstacles.getD 0 obDefault).height = 130 := by
  have h := obstaclePlacementFormulas stC4 false r0C4 1 900
    ((generateObstacles false r0C4 stC4).levelObstacles) 0
    ((generateObstacles false r0C4 stC4).levelObstacles.getD 0 obDefault) 240
    (by norm_num [stC4]) (by norm_num [stC4]) rfl
    (by rw [stC4_gen]; norm_num) rfl (by norm_num [stC4])
  constructor
  · rw [h.1]
    norm_num [r0C4, stC4, max_def]
  · rw [h.2.2.1]
    norm_num [r0C4, stC4]

/-- C5: for every generated sequence, with the draws in the range
`Math.random` guarantees and the gameplay-reachable sign hypotheses,
adjacent obstacles are monotonically non-decreasing in x at generation
time: each new obstacle's x is the previous rightmost edge plus a
positive gap, and widths are nonnegative. -/
theorem obstacleMonotoneX (s : GameState) (isInf : Bool) (rands : ℕ → ℚ × ℚ × ℚ)
    (obs : List Obstacle)
    (hobs : obs = (generateObstacles isInf rands s).levelObstacles)
    (hpw : 0 ≤ s.player.width) (hph : 0 ≤ s.player.height)
    (hsc : 0 ≤ s.score) (hlev : 1 ≤ s.currentLevel)
    (hr : ∀ k, 0 ≤ (rands k).2.1)
    (i : ℕ) (hi : i + 1 < obs.length) :
    (obs.getD i obDefault).x ≤ (obs.getD (i + 1) obDefault).x := by
  subst hobs
  rw [generateObstacles_levelObstacles] at hi ⊢
  have H := genLoop_getD (genParamsOf isInf rands s)
    (genFuel (genParamsOf isInf rands s).maxDist) (s.canvasWidth * 0.6) 0 0 (i + 1) hi
  rw [Nat.zero_add] at H
  have H2 := genLoop_getD (genParamsOf isInf rands s)
    (genFuel (genParamsOf isInf rands s).maxDist) (s.canvasWidth * 0.6) 0 0 i
    (Nat.lt_of_succ_lt hi)
  rw [Nat.zero_add] at H2
  have hne : i + 1 ≠ 0 := Nat.succ_ne_zero i
  have hsub : i + 1 - 1 = i := rfl
  rw [H.1, if_neg hne, hsub]
  have hwidth := H2.2.1
  have hw0 := genParamsOf_genW_nonneg isInf rands s hpw hph hsc hlev hr i
  have hminGap : (genParamsOf isInf rands s).minGap = max (s.player.width * 1.6) 40 := rfl
  have hgap40 : (40 : ℚ) ≤ genGap (genParamsOf isInf rands s) (i + 1) := by
    refine le_trans ?_ (le_max_left _ _)
    rw [hminGap]
    exact le_max_right _ _
  linarith [hwidth, hw0, hgap40]

/-- Witness for C5 on the two obstacles of the concrete level-1 run. -/
theorem obstacleMonotoneX_witness :
    ((generateObstacles false r0C4 stC4).levelObstacles.getD 0 obDefault).x ≤
      ((generateObstacles false r0C4 stC4).levelObstacles.getD 1 obDefault).x := by
  refine obstacleMonotoneX stC4 false r0C4 _ rfl (by norm_num [stC4]) (by norm_num [stC4])
    (by norm_num [stC4]) (by norm_num [stC4]) (fun k => by norm_num [r0C4]) 0 ?_
  rw [stC4_gen]
  norm_num

/-!
## C6: retry semantics from GAME_OVER
-/

/-- C6: from GAME_OVER, a click inside the Retry button (which is
disjoint from the Return-to-Menu button for every viewport) resets the
player and then: with previousMode = LEVEL it regenerates obstacles for
the *unchanged* currentLevel and transitions to LEVEL; with previousMode
= INFINITE it zeroes the score *before* regenerating infinite obstacles
and transitions to INFINITE. -/
theorem retryFromGameOver (s : GameState) (x y : ℚ) (rands : ℕ → ℚ × ℚ × ℚ)
    (hmode : s.gameState = GameMode.GAME_OVER)
    (hclick : isButtonClicked (gameOverRetryButton s.canvasWidth s.canvasHeight) x y = true) :
    (s.previousGameState = GameMode.LEVEL →
      handleMouseDown x y rands s =
        { generateObstacles false rands (resetPlayerAndObstacles s) with
          gameState := GameMode.LEVEL } ∧
      (handleMouseDown x y rands s).currentLevel = s.currentLevel) ∧
    (s.previousGameState = GameMode.INFINITE →
      handleMouseDown x y rands s =
        { generateObstacles true rands { resetPlayerAndObstacles s with score := 0 } with
          gameState := GameMode.INFINITE }) := by
  have hnotmenu : isButtonClicked (gameOverMenuButton s.canvasWidth s.canvasHeight) x y = false := by
    rw [isButtonClicked, decide_eq_false_iff_not]
    rw [isButtonClicked, decide_eq_true_eq] at hclick
    intro hmenu
    unfold gameOverRetryButton at hclick
    unfold gameOverMenuButton at hmenu
    obtain ⟨hx1, -, -, -⟩ := hclick
    obtain ⟨-, hx2, -, -⟩ := hmenu
    simp only at hx1 hx2
    linarith
  have hbody : handleMouseDown x y rands s =
      (let s1 := resetPlayerAndObstacles s
       if s1.previousGameState = GameMode.INFINITE then
        { generateObstacles true rands { s1 with score := 0 } with gameState := GameMode.INFINITE }
       else
        { generateObstacles false rands s1 with gameState := GameMode.LEVEL }) := by
    unfold handleMouseDown
    rw [hmode]
    simp only [hnotmenu, hclick, Bool.false_eq_true, if_false, if_true]
  have hprev : (resetPlayerAndObstacles s).previousGameState = s.previousGameState := rfl
  constructor
  · intro hlev
    have hne : ¬ (resetPlayerAndObstacles s).previousGameState = GameMode.INFINITE := by
      rw [hprev, hlev]
      intro hcontra
      exact GameMode.noConfusion hcontra
    rw [hbody]
    simp only [if_neg hne]
    constructor <;> trivial
  · intro hinf
    have hyes : (resetPlayerAndObstacles s).previousGameState = GameMode.INFINITE := by
      rw [hprev, hinf]
    rw [hbody]
    simp only [if_pos hyes]

/-- Concrete state for the C6 witness: GAME_OVER after a level-7 crash
on a 1000x600 viewport. -/
def stC6 : GameState :=
  { gameState := GameMode.GAME_OVER
    previousGameState := GameMode.LEVEL
    currentLevel := 7
    score := 0
    levelObstacles := [{ x := 60, y := 313, width := 50, height := 63 }]
    player :=
      { x := 50, y := 430, width := 90, height := 90, velocityY := 0, gravity := 2.1
        jumpStrength := -36, isGrounded := true, hitboxOffsetX := 0.12, hitboxOffsetY := 0.18
        hitboxWidthScale := 0.76, hitboxHeightScale := 0.68, terminalVelocity := 1500 }
    canvasWidth := 1000
    canvasHeight := 600
    groundHeight := 36 }

/-- Witness for C6: clicking Retry at (600, 340) from the level-7
GAME_OVER keeps currentLevel at 7 and transitions to LEVEL. -/
theorem retryFromGameOver_witness :
    (handleMouseDown 600 340 r0C4 stC6).currentLevel = 7 ∧
      (handleMouseDown 600 340 r0C4 stC6).gameState = GameMode.LEVEL := by
  have h := retryFromGameOver stC6 600 340 r0C4 rfl
    (by norm_num [isButtonClicked, gameOverRetryButton, stC6])
  have h2 := h.1 rfl
  constructor
  · rw [h2.2]
    norm_num [stC6]
  · rw [h2.1]

/-!
## Frame dispatch case lemmas
-/

lemma frame_eq_of_menu (s : GameState) (delta : ℚ) (h : s.gameState = GameMode.MENU) :
    frame delta s = s := by
  unfold frame
  rw [h]

lemma frame_eq_of_levelSelect (s : GameState) (delta : ℚ)
    (h : s.gameState = GameMode.LEVEL_SELECT) : frame delta s = s := by
  unfold frame
  rw [h]

lemma frame_eq_of_gameOver (s : GameState) (delta : ℚ)
    (h : s.gameState = GameMode.GAME_OVER) : frame delta s = s := by
  unfold frame
  rw [h]

lemma frame_eq_of_levelComplete (s : GameState) (delta : ℚ)
    (h : s.gameState = GameMode.LEVEL_COMPLETE) : frame delta s = s := by
  unfold frame
  rw [h]

lemma frame_eq_of_active (s : GameState) (delta : ℚ)
    (h : s.gameState = GameMode.LEVEL ∨ s.gameState = GameMode.INFINITE) :
    frame delta s =
      if (updateGame delta s).gameState = GameMode.LEVEL then updateGame delta s
      else updateScore delta (updateGame delta s) := by
  unfold frame
  rcases h with h | h <;> rw [h]

@[simp] lemma updateScore_currentLevel (delta : ℚ) (s : GameState) :
    (updateScore delta s).currentLevel = s.currentLevel := rfl

@[simp] lemma updateScore_gameState (delta : ℚ) (s : GameState) :
    (updateScore delta s).gameState = s.gameState := rfl

@[simp] lemma jump_currentLevel (s : GameState) : (jump s).currentLevel = s.currentLevel := by
  unfold jump
  split <;> rfl

lemma applyScanResult_currentLevel (s : GameState) (r : List Obstacle × Bool × Bool) :
    (applyScanResult s r).currentLevel = s.currentLevel ∨
      ((applyScanResult s r).currentLevel = s.currentLevel + 1 ∧
        (applyScanResult s r).gameState = GameMode.LEVEL_COMPLETE) := by
  unfold applyScanResult
  split
  · left
    rfl
  · split
    · right
      exact ⟨rfl, rfl⟩
    · left
      rfl

lemma applyScanResult_score (s : GameState) (r : List Obstacle × Bool × Bool) :
    (applyScanResult s r).score = s.score := by
  unfold applyScanResult
  split
  · rfl
  · split <;> rfl

lemma applyScanResult_gameState (s : GameState) (r : List Obstacle × Bool × Bool) :
    (applyScanResult s r).gameState = s.gameState ∨
      (applyScanResult s r).gameState = GameMode.GAME_OVER ∨
      (applyScanResult s r).gameState = GameMode.LEVEL_COMPLETE := by
  unfold applyScanResult
  split
  · right
    left
    rfl
  · split
    · right
      right
      rfl
    · left
      rfl

/-- The only mutation `updateObstacles` applies to `currentLevel` is the
`+1` on the level-completion branch, where it also switches to
LEVEL_COMPLETE. -/
lemma updateObstacles_currentLevel (delta : ℚ) (s : GameState) :
    (updateObstacles delta s).currentLevel = s.currentLevel ∨
      ((updateObstacles delta s).currentLevel = s.currentLevel + 1 ∧
        (updateObstacles delta s).gameState = GameMode.LEVEL_COMPLETE) := by
  unfold updateObstacles
  exact applyScanResult_currentLevel s _

/-- `updateObstacles` never touches the score. -/
lemma updateObstacles_score (delta : ℚ) (s : GameState) :
    (updateObstacles delta s).score = s.score := by
  unfold updateObstacles
  exact applyScanResult_score s _

/-- The post-scan mode is the old mode, GAME_OVER, or LEVEL_COMPLETE. -/
lemma updateObstacles_gameState (delta : ℚ) (s : GameState) :
    (updateObstacles delta s).gameState = s.gameState ∨
      (updateObstacles delta s).gameState = GameMode.GAME_OVER ∨
      (updateObstacles delta s).gameState = GameMode.LEVEL_COMPLETE := by
  unfold updateObstacles
  exact applyScanResult_gameState s _

lemma updateGame_score (delta : ℚ) (s : GameState) :
    (updateGame delta s).score = s.score := by
  unfold updateGame
  rw [updateObstacles_score]
  rfl

lemma updateGame_currentLevel (delta : ℚ) (s : GameState) :
    (updateGame delta s).currentLevel = s.currentLevel ∨
      ((updateGame delta s).currentLevel = s.currentLevel + 1 ∧
        (updateGame delta s).gameState = GameMode.LEVEL_COMPLETE) := by
  unfold updateGame
  have h := updateObstacles_currentLevel delta (updatePlayer s)
  simpa using h

/-!
## C7: how the level index can change (amended)
-/

/-- The behaviour of `handleMouseDown` in the LEVEL_SELECT state when
the back button is missed and level button `i` is hit first. -/
lemma handleMouseDown_levelSelect (s : GameState) (x y : ℚ) (rands : ℕ → ℚ × ℚ × ℚ)
    (hmode : s.gameState = GameMode.LEVEL_SELECT)
    (hback : isButtonClicked (backButton s.canvasWidth s.canvasHeight) x y = false)
    (i : ℕ)
    (hfind : (((List.range 50).map fun n => n + 1).find? fun j =>
      isButtonClicked (levelButton s.canvasWidth s.canvasHeight j) x y) = some i) :
    handleMouseDown x y rands s =
      { generateObstacles false rands
          (resetPlayerAndObstacles { s with currentLevel := (i : ℚ) }) with
        gameState := GameMode.LEVEL } := by
  unfold handleMouseDown
  rw [hmode]
  simp only [hback, Bool.false_eq_true, if_false, hfind]

/-- C7 (amended): across every operation of the state machine,
`currentLevel` changes only in two ways: a tick may increment it by
exactly 1 while transitioning to LEVEL_COMPLETE, and a LEVEL_SELECT
click may set it to the clicked level N with 1 ≤ N ≤ 50 — which may
*decrease* it.  Key input never changes it. -/
theorem currentLevelChangeSources :
    (∀ (s : GameState) (delta : ℚ),
      (frame delta s).currentLevel = s.currentLevel ∨
        ((frame delta s).currentLevel = s.currentLevel + 1 ∧
          (frame delta s).gameState = GameMode.LEVEL_COMPLETE)) ∧
    (∀ (s : GameState) (x y : ℚ) (rands : ℕ → ℚ × ℚ × ℚ),
      (handleMouseDown x y rands s).currentLevel = s.currentLevel ∨
        (s.gameState = GameMode.LEVEL_SELECT ∧ ∃ i : ℕ, 1 ≤ i ∧ i ≤ 50 ∧
          (handleMouseDown x y rands s).currentLevel = (i : ℚ))) ∧
    (∀ (s : GameState) (code : String),
      (handleKeyInput code s).currentLevel = s.currentLevel) := by
  refine ⟨?_, ?_, ?_⟩
  · intro s delta
    cases hgs : s.gameState with
    | MENU => rw [frame_eq_of_menu s delta hgs]; left; rfl
    | LEVEL_SELECT => rw [frame_eq_of_levelSelect s delta hgs]; left; rfl
    | GAME_OVER => rw [frame_eq_of_gameOver s delta hgs]; left; rfl
    | LEVEL_COMPLETE => rw [frame_eq_of_levelComplete s delta hgs]; left; rfl
    | LEVEL =>
      rw [frame_eq_of_active s delta (Or.inl hgs)]
      rcases updateGame_currentLevel delta s with h | ⟨h1, h2⟩
      · split
        · left
          exact h
        · left
          rw [updateScore_currentLevel]
          exact h
      · split
        · right
          exact ⟨h1, h2⟩
        · right
          rw [updateScore_currentLevel, updateScore_gameState]
          exact ⟨h1, h2⟩
    | INFINITE =>
      rw [frame_eq_of_active s delta (Or.inr hgs)]
      rcases updateGame_currentLevel delta s with h | ⟨h1, h2⟩
      · split
        · left
          exact h
        · left
          rw [updateScore_currentLevel]
          exact h
      · split
        · right
          exact ⟨h1, h2⟩
        · right
          rw [updateScore_currentLevel, updateScore_gameState]
          exact ⟨h1, h2⟩
  · intro s x y rands
    unfold handleMouseDown
    cases hgs : s.gameState with
    | MENU =>
      dsimp only
      left
      split
      · rfl
      · split <;> rfl
    | LEVEL_SELECT =>
      dsimp only
      split
      · left
        rfl
      · rcases hf : (((List.range 50).map fun n => n + 1).find? fun j =>
            isButtonClicked (levelButton s.canvasWidth s.canvasHeight j) x y) with - | i
        · left
          rfl
        · right
          refine ⟨rfl, i, ?_, ?_, rfl⟩
          · have hmem := List.mem_of_find?_eq_some hf
            simp only [List.mem_map, List.mem_range] at hmem
            omega
          · have hmem := List.mem_of_find?_eq_some hf
            simp only [List.mem_map, List.mem_range] at hmem
            omega
    | GAME_OVER =>
      dsimp only
      left
      split
      · rfl
      · split
        · split <;> rfl
        · rfl
    | LEVEL_COMPLETE =>
      dsimp only
      left
      split
      · rfl
      · split <;> rfl
    | LEVEL =>
      left
      rfl
    | INFINITE =>
      left
      rfl
  · intro s code
    unfold handleKeyInput
    split
    · rw [jump_currentLevel]
    · rfl

/-- Concrete state for the C7 counterexample: LEVEL_SELECT with
currentLevel 7 on a 1000x600 viewport. -/
def stC7 : GameState :=
  { gameState := GameMode.LEVEL_SELECT
    previousGameState := GameMode.INFINITE
    currentLevel := 7
    score := 0
    levelObstacles := []
    player :=
      { x := 50, y := 430, width := 90, height := 90, velocityY := 0, gravity := 2.1
        jumpStrength := -36, isGrounded := true, hitboxOffsetX := 0.12, hitboxOffsetY := 0.18
        hitboxWidthScale := 0.76, hitboxHeightScale := 0.68, terminalVelocity := 1500 }
    canvasWidth := 1000
    canvasHeight := 600
    groundHeight := 36 }

/-- C7 counterexample: from LEVEL_SELECT with currentLevel = 7, clicking
the level-1 button at (125, 165) *decreases* currentLevel (7 to 1), so
the level index is not "never decremented" across state-machine
operations. -/
theorem currentLevelDecreaseCx :
    (handleMouseDown 125 165 r0C4 stC7).currentLevel < stC7.currentLevel := by
  have hback : isButtonClicked (backButton stC7.canvasWidth stC7.canvasHeight) 125 165
      = false := by
    norm_num [isButtonClicked, backButton, stC7]
  have hfind : (((List.range 50).map fun n => n + 1).find? fun j =>
      isButtonClicked (levelButton stC7.canvasWidth stC7.canvasHeight j) 125 165)
      = some 1 := by
    rw [show (50 : ℕ) = 49 + 1 from rfl, List.range_succ_eq_map, List.map_cons]
    apply List.find?_cons_of_pos
    norm_num [isButtonClicked, levelButton, stC7]
  rw [handleMouseDown_levelSelect stC7 125 165 r0C4 rfl hback 1 hfind]
  show ((1 : ℕ) : ℚ) < stC7.currentLevel
  norm_num [stC7]

/-!
## C8: when the score accrues (amended)
-/

lemma updateGame_gameState (delta : ℚ) (s : GameState) :
    (updateGame delta s).gameState = s.gameState ∨
      (updateGame delta s).gameState = GameMode.GAME_OVER ∨
      (updateGame delta s).gameState = GameMode.LEVEL_COMPLETE := by
  unfold updateGame
  have h := updateObstacles_gameState delta (updatePlayer s)
  simpa using h

/-- Exact score effect of one frame: 250*dt is added exactly when the
frame entered in INFINITE mode, or entered in LEVEL mode and the update
left LEVEL (collision or completion) — because the dispatch re-reads the
state after `updateGame` and runs `updateScore` whenever it is not
LEVEL. -/
lemma frame_score (s : GameState) (delta : ℚ) :
    (frame delta s).score = s.score +
      (if s.gameState = GameMode.INFINITE ∨
          (s.gameState = GameMode.LEVEL ∧ (updateGame delta s).gameState ≠ GameMode.LEVEL)
        then 250 * delta else 0) := by
  cases hgs : s.gameState with
  | MENU => rw [frame_eq_of_menu s delta hgs]; simp
  | LEVEL_SELECT => rw [frame_eq_of_levelSelect s delta hgs]; simp
  | GAME_OVER => rw [frame_eq_of_gameOver s delta hgs]; simp
  | LEVEL_COMPLETE => rw [frame_eq_of_levelComplete s delta hgs]; simp
  | LEVEL =>
    rw [frame_eq_of_active s delta (Or.inl hgs)]
    by_cases hL : (updateGame delta s).gameState = GameMode.LEVEL
    · rw [if_pos hL, updateGame_score]
      simp [hL]
    · rw [if_neg hL]
      have hsc : (updateScore delta (updateGame delta s)).score =
          (updateGame delta s).score + 250 * delta := rfl
      rw [hsc, updateGame_score, if_pos (Or.inr ⟨rfl, hL⟩)]
  | INFINITE =>
    rw [frame_eq_of_active s delta (Or.inr hgs)]
    have hne : (updateGame delta s).gameState ≠ GameMode.LEVEL := by
      rcases updateGame_gameState delta s with h | h | h <;> rw [h]
      · rw [hgs]
        intro hc
        exact GameMode.noConfusion hc
      · intro hc
        exact GameMode.noConfusion hc
      · intro hc
        exact GameMode.noConfusion hc
    rw [if_neg hne]
    have hsc : (updateScore delta (updateGame delta s)).score =
        (updateGame delta s).score + 250 * delta := rfl
    rw [hsc, updateGame_score, if_pos (Or.inl rfl)]

lemma runFrames_nil (s : GameState) : runFrames [] s = s := rfl

lemma runFrames_cons (d : ℚ) (dts : List ℚ) (s : GameState) :
    runFrames (d :: dts) s = runFrames dts (frame d s) := rfl

/-- Over a run in which every frame is entered in INFINITE mode, the
score accrues exactly 250 per second of summed dt. -/
lemma runFrames_score_infinite (dts : List ℚ) : ∀ s : GameState,
    (∀ n, n < dts.length → (runFrames (dts.take n) s).gameState = GameMode.INFINITE) →
    (runFrames dts s).score = s.score + 250 * dts.sum := by
  induction dts with
  | nil =>
    intro s h
    rw [runFrames_nil]
    simp
  | cons d rest ih =>
    intro s h
    have h0 : s.gameState = GameMode.INFINITE := by
      have := h 0 (by simp)
      simpa [runFrames_nil] using this
    have hstep : (frame d s).score = s.score + 250 * d := by
      rw [frame_score, if_pos (Or.inl h0)]
    have hshift : ∀ n, n < rest.length →
        (runFrames (rest.take n) (frame d s)).gameState = GameMode.INFINITE := by
      intro n hn
      have := h (n + 1) (by simpa using Nat.succ_lt_succ hn)
      rw [List.take_succ_cons, runFrames_cons] at this
      exact this
    rw [runFrames_cons, ih (frame d s) hshift, hstep, List.sum_cons]
    ring

/-- C8 (amended): one frame adds `250*dt` to the score exactly when it
enters in INFINITE mode, or enters in LEVEL mode and that tick's update
transitions out of LEVEL (collision or completion) — so a LEVEL crash or
completion tick *does* increment the score, contrary to the unamended
claim; in all remaining cases the score is untouched.  Over any run of
frames all entered in INFINITE mode (i.e. with no collision) whose dt
values sum to exactly 2 seconds, the score increases by exactly 500. -/
theorem scoreAccrual :
    (∀ (s : GameState) (delta : ℚ),
      (frame delta s).score = s.score +
        (if s.gameState = GameMode.INFINITE ∨
            (s.gameState = GameMode.LEVEL ∧ (updateGame delta s).gameState ≠ GameMode.LEVEL)
          then 250 * delta else 0)) ∧
    (∀ (s : GameState) (dts : List ℚ),
      (∀ n, n < dts.length → (runFrames (dts.take n) s).gameState = GameMode.INFINITE) →
      dts.sum = 2 → (runFrames dts s).score = s.score + 500) := by
  refine ⟨frame_score, ?_⟩
  intro s dts hmode hsum
  rw [runFrames_score_infinite dts s hmode, hsum]
  norm_num

/-- Concrete INFINITE state for the C8 witness. -/
def stC8i : GameState :=
  { gameState := GameMode.INFINITE
    previousGameState := GameMode.INFINITE
    currentLevel := 1
    score := 0
    levelObstacles := []
    player :=
      { x := 40, y := 316, width := 60, height := 60, velocityY := 0, gravity := 1.4
        jumpStrength := -24, isGrounded := true, hitboxOffsetX := 0.12, hitboxOffsetY := 0.18
        hitboxWidthScale := 0.76, hitboxHeightScale := 0.68, terminalVelocity := 1000 }
    canvasWidth := 800
    canvasHeight := 400
    groundHeight := 24 }

/-- Witness for C8 (amended): a 2-second INFINITE run with no collision
gains exactly 500 score. -/
theorem scoreAccrual_witness : (runFrames [2] stC8i).score = stC8i.score + 500 :=
  scoreAccrual.2 stC8i [2]
    (by
      intro n hn
      simp only [List.length_singleton] at hn
      have hn0 : n = 0 := by omega
      subst hn0
      rfl)
    (by norm_num)

/-- Concrete LEVEL state for the C8 counterexample: the obstacle
overlaps the hitbox after this tick's scroll. -/
def stC8c : GameState :=
  { gameState := GameMode.LEVEL
    previousGameState := GameMode.INFINITE
    currentLevel := 2
    score := 0
    levelObstacles := [{ x := 60, y := 313, width := 50, height := 63 }]
    player :=
      { x := 40, y := 316, width := 60, height := 60, velocityY := 0, gravity := 1.4
        jumpStrength := -24, isGrounded := true, hitboxOffsetX := 0.12, hitboxOffsetY := 0.18
        hitboxWidthScale := 0.76, hitboxHeightScale := 0.68, terminalVelocity := 1000 }
    canvasWidth := 800
    canvasHeight := 400
    groundHeight := 24 }

/-- C8 counterexample: a tick that enters in LEVEL mode (never
INFINITE) and crashes ends in GAME_OVER with the score *incremented*,
refuting "in every other state score is never incremented". -/
theorem scoreOutsideInfiniteCx :
    stC8c.gameState = GameMode.LEVEL ∧
      (frame (1/10) stC8c).gameState = GameMode.GAME_OVER ∧
      stC8c.score < (frame (1/10) stC8c).score := by
  have hup : updatePlayer stC8c = stC8c := by
    norm_num [updatePlayer, applyGravity, groundSnap, ceilingSnap, stC8c]
  have hcol := collisionTickOutcome stC8c (1/10) 25 [] []
    { x := 60, y := 313, width := 50, height := 63 }
    (by norm_num [stC8c]) (Or.inl rfl) rfl (by simp)
    (by norm_num [stC8c, collides, shiftObs, hitboxX, hitboxY, hitboxW, hitboxH])
  have hug : updateGame (1/10) stC8c =
      { stC8c with
        levelObstacles := List.map (shiftObs 25) [] ++
          shiftObs 25 { x := 60, y := 313, width := 50, height := 63 } :: []
        gameState := GameMode.GAME_OVER
        previousGameState := stC8c.gameState
        player := { stC8c.player with velocityY := 0, isGrounded := true } } := by
    unfold updateGame
    rw [hup, hcol]
  have hframe : frame (1/10) stC8c = updateScore (1/10) (updateGame (1/10) stC8c) := by
    rw [frame_eq_of_active stC8c (1/10) (Or.inl rfl)]
    rw [if_neg (by rw [hug]; intro hc; exact GameMode.noConfusion hc)]
  refine ⟨rfl, ?_, ?_⟩
  · rw [hframe, hug]
    rfl
  · rw [hframe]
    have hsc : (updateScore (1/10) (updateGame (1/10) stC8c)).score =
        (updateGame (1/10) stC8c).score + 250 * (1/10) := rfl
    rw [hsc, hug]
    show stC8c.score < stC8c.score + 250 * (1/10)
    norm_num
